import Mathlib

/-!
Shallow embedding of the memoist user-identity service
(`backend/app/core/security.py`, `backend/app/core/settings.py`,
`backend/app/models/auth.py`, `backend/app/api/v1/auth.py`) and proofs of
the specification claims about it.

Modelling conventions:
- machine time is `Int` seconds since the epoch; `datetime.now(timezone.utc)`
  is an explicit `now : Int` argument threaded through every operation;
- JWT claim values are `Claim` (string or number); a claims dict is an
  association list with Python `dict` lookup/update semantics;
- a token produced by `jose.jwt.encode` is modelled as the signed claim set
  together with the key and algorithm that signed it; `jose.jwt.decode`
  verifies key and algorithm and checks the `exp` claim strictly against the
  clock (python-jose raises `ExpiredSignatureError` iff `exp < now`, zero
  leeway); any other token string is `Token.malformed`;
- account identifiers (`uuid.UUID` primary keys) are modelled by their
  canonical string form; Python `str(uuid)` is the identity on that form and
  `uuid.UUID(s)` is `uuidParse`, a parser that accepts exactly the canonical
  8-4-4-4-12 lowercase-hex form (so it fails on malformed subjects and
  round-trips `str`);
- the passlib `CryptContext` configured in `security.py` (default scheme
  `pbkdf2_sha256`, legacy `bcrypt` / `bcrypt_sha256`) is an external
  collaborator; it is modelled as a `PasslibContext` bundle of its four
  operations together with the contract the spec states for it in §4.1
  (hashes are self-describing, the default scheme accepts any input length,
  verification succeeds exactly for the hashed password);
- an HTTP endpoint returns `Except PyErr α`: `PyErr.httpException` is a
  raised `fastapi.HTTPException` (surfaced with its own status code), and
  `PyErr.unhandled` is any other uncaught exception, which the generic
  exception handler in `app/api/main.py` surfaces as status 500.
-/

namespace Memoist

/-- Security-relevant fields of `Settings` (`app/core/settings.py`), with the
declared defaults. -/
structure Settings where
  SECRET_KEY : String
  ALGORITHM : String
  ACCESS_TOKEN_EXPIRE_MINUTES : Int
  REFRESH_TOKEN_EXPIRE_DAYS : Int
deriving DecidableEq

/-- A `Settings` value with every security field at its declared default. -/
def defaultSettings : Settings :=
  { SECRET_KEY := "test-secret-key"
    ALGORITHM := "HS256"
    ACCESS_TOKEN_EXPIRE_MINUTES := 30
    REFRESH_TOKEN_EXPIRE_DAYS := 7 }

/-- A JWT claim value: claims issued by this code carry strings and integer
timestamps. -/
inductive Claim
  | str (s : String)
  | num (n : Int)
deriving DecidableEq

/-- A claims dictionary, with Python `dict` lookup semantics via
`List.lookup` (keys are unique in every dict this code builds). -/
abbrev Claims := List (String × Claim)

/-- `d[k] = v` for a Python dict: replace the binding if the key is present,
append it otherwise. -/
def dictSet (d : Claims) (k : String) (v : Claim) : Claims :=
  match d with
  | [] => [(k, v)]
  | (k₁, v₁) :: rest => if k₁ = k then (k, v) :: rest else (k₁, v₁) :: dictSet rest k v

/-- `base.update(extra)` for Python dicts. -/
def dictUpdate (base extra : Claims) : Claims :=
  extra.foldl (fun d kv => dictSet d kv.1 kv.2) base

/-- A token string as produced by `jose.jwt.encode`: the signed claim set
plus the key and algorithm of its signature; any string that is not a
well-formed signed token is `malformed`. -/
inductive Token
  | signed (claims : Claims) (key : String) (alg : String)
  | malformed (s : String)
deriving DecidableEq

/-- The python-jose decode failures: `JWTError` (bad signature, wrong
algorithm, malformed token or claims) and `ExpiredSignatureError`. -/
inductive JoseError
  | jwtError
  | expiredSignature
deriving DecidableEq

/-- `jose.jwt.decode(token, key, algorithms)`: verify the signature against
`key` and the accepted algorithm list, then check `exp` against the clock;
python-jose treats the token as expired iff `exp < now` (zero leeway). -/
def joseDecode (t : Token) (key : String) (algs : List String) (now : Int) :
    Except JoseError Claims :=
  match t with
  | .malformed _ => .error .jwtError
  | .signed cs k a =>
    if k = key ∧ a ∈ algs then
      match cs.lookup "exp" with
      | some (.num e) => if e < now then .error .expiredSignature else .ok cs
      | some (.str _) => .error .jwtError
      | none => .ok cs
    else .error .jwtError

/-- Python `x or d` for `x : Optional[int]`: `None` and `0` are both falsy,
so both fall back to the default `d`. -/
def orDefault (v : Option Int) (d : Int) : Int :=
  match v with
  | none => d
  | some m => if m = 0 then d else m

/-- `create_access_token` (`security.py:36-45`): claims
`{sub, exp = now + minutes}` updated with `extra`, signed with the
process-wide secret and algorithm. `expires_minutes or
settings.ACCESS_TOKEN_EXPIRE_MINUTES` is the Python falsy-or. -/
def create_access_token (S : Settings) (subject : String)
    (expires_minutes : Option Int) (extra : Option Claims) (now : Int) : Token :=
  let m := orDefault expires_minutes S.ACCESS_TOKEN_EXPIRE_MINUTES
  let to_encode : Claims := [("sub", .str subject), ("exp", .num (now + 60 * m))]
  let to_encode := match extra with
    | some e => if e = [] then to_encode else dictUpdate to_encode e
    | none => to_encode
  .signed to_encode S.SECRET_KEY S.ALGORITHM

/-- `decode_token` (`security.py:48-49`). -/
def decode_token (S : Settings) (t : Token) (now : Int) : Except JoseError Claims :=
  joseDecode t S.SECRET_KEY [S.ALGORITHM] now

/-- `create_refresh_token` (`security.py:51-56`): like the access token but
with an explicit `type = "refresh"` claim and a ttl in days. -/
def create_refresh_token (S : Settings) (subject : String)
    (expires_days : Option Int) (extra : Option Claims) (now : Int) : Token :=
  let d := orDefault expires_days S.REFRESH_TOKEN_EXPIRE_DAYS
  let to_encode : Claims :=
    [("sub", .str subject), ("type", .str "refresh"), ("exp", .num (now + 86400 * d))]
  let to_encode := match extra with
    | some e => if e = [] then to_encode else dictUpdate to_encode e
    | none => to_encode
  .signed to_encode S.SECRET_KEY S.ALGORITHM

/-- The passlib `CryptContext` of `security.py:8-14` (schemes
`pbkdf2_sha256` (default), `bcrypt_sha256`, `bcrypt`) together with
`hashlib.sha256(...).hexdigest()`, modelled as an external collaborator.
The `Prop` fields are its contract as stated in spec §4.1: the default
scheme `pbkdf2_sha256` has no input-length limit so `hash` never raises;
hashes are self-describing (`identify` recovers the scheme of a fresh hash);
and `verify` accepts exactly the hashed password (the spec's idealisation of
a collision-free keyed hash). -/
structure PasslibContext where
  hashExc : String → Except String String
  verify : String → String → Bool
  identify : String → Option String
  sha256hex : String → String
  hash_ok : ∀ p, (hashExc p).isOk = true
  identify_default : ∀ p h, hashExc p = .ok h → identify h = some "pbkdf2_sha256"
  verify_correct : ∀ p h, hashExc p = .ok h → verify p h = true
  verify_sound : ∀ p q h, hashExc p = .ok h → verify q h = true → q = p

/-- Python `"72 bytes" in str(e)`. -/
def mentions72Bytes (e : String) : Bool :=
  (e.splitOn "72 bytes").length > 1

/-- `verify_password` (`security.py:18-23`): if the stored hash was produced
by the length-limited `bcrypt` scheme and the candidate exceeds 72 UTF-8
bytes, pre-digest it with sha256 hex before verifying. -/
def verify_password (H : PasslibContext) (plain_password hashed_password : String) : Bool :=
  if H.identify hashed_password = some "bcrypt" ∧ plain_password.utf8ByteSize > 72 then
    H.verify (H.sha256hex plain_password) hashed_password
  else
    H.verify plain_password hashed_password

/-- `get_password_hash` (`security.py:26-33`): hash with the context's
default scheme; if that raises a 72-byte length error, hash the sha256 hex
digest instead; re-raise anything else. -/
def get_password_hash (H : PasslibContext) (password : String) : Except String String :=
  match H.hashExc password with
  | .ok h => .ok h
  | .error e =>
    if mentions72Bytes e then H.hashExc (H.sha256hex password)
    else .error e

/-- Lowercase hex digit, for the canonical `uuid.UUID` string form. -/
def isHexDigit (c : Char) : Bool :=
  (('0' ≤ c) && (c ≤ '9')) || (('a' ≤ c) && (c ≤ 'f'))

/-- Split a character list at `'-'`. -/
def splitDash : List Char → List (List Char)
  | [] => [[]]
  | c :: cs =>
    if c = '-' then [] :: splitDash cs
    else
      match splitDash cs with
      | g :: gs => (c :: g) :: gs
      | [] => [[c]]

/-- The canonical string form of a `uuid.UUID`: five lowercase-hex groups of
lengths 8-4-4-4-12. `str(uuid)` always yields this form. -/
def validUuid (s : String) : Bool :=
  match splitDash s.data with
  | [a, b, c, d, e] =>
    a.length == 8 && b.length == 4 && c.length == 4 && d.length == 4 &&
      e.length == 12 && (a ++ b ++ c ++ d ++ e).all isHexDigit
  | _ => false

/-- `uuid.UUID(s)`: succeeds exactly on identifier strings in canonical
form, round-tripping them unchanged, and raises on anything malformed (the
model rejects the non-canonical spellings `UUID` would normalise, which no
code path produces). -/
def uuidParse (s : String) : Option String :=
  if validUuid s then some s else none

/-- The `users` row of `app/models/auth.py`. The `uuid.UUID` primary key is
carried in its canonical string form. -/
structure User where
  id : String
  email : String
  username : String
  full_name : Option String
  is_active : Bool
  password_hash : String
  created_at : Int
  updated_at : Int
  last_login : Option Int
deriving DecidableEq

/-- `UserResponse` (`auth.py:47-51`): the response projection — it has no
password-hash field at all. -/
structure UserResponse where
  email : String
  username : String
  full_name : Option String
  is_active : Bool
  id : String
  created_at : Int
  updated_at : Int
  last_login : Option Int
deriving DecidableEq

/-- `to_user_response` (`auth.py:100-110`). -/
def to_user_response (u : User) : UserResponse :=
  { id := u.id
    email := u.email
    username := u.username
    full_name := u.full_name
    is_active := u.is_active
    created_at := u.created_at
    updated_at := u.updated_at
    last_login := u.last_login }

/-- `UserListResponse` (`auth.py:54-58`). -/
structure UserListResponse where
  users : List UserResponse
  total : Nat
  skip : Nat
  limit : Nat
deriving DecidableEq

/-- An error raised by an endpoint body: a `fastapi.HTTPException` carrying
its own status code, or any other uncaught exception, which the
`@app.exception_handler(Exception)` in `app/api/main.py` surfaces as a
status-500 response. -/
inductive PyErr
  | httpException (status : Nat) (detail : String)
  | unhandled (msg : String)
deriving DecidableEq

/-- The HTTP status a raised `PyErr` is surfaced with. -/
def errStatus : PyErr → Nat
  | .httpException s _ => s
  | .unhandled _ => 500

/-- Python truthiness of `payload.get("sub")`: `None`, `""` and `0` are
falsy. -/
def pyFalsy : Option Claim → Bool
  | none => true
  | some (.str s) => s == ""
  | some (.num n) => n == 0

/-- `uuid.UUID(sub)`: parses the string form of an identifier, failing on a
malformed string; a non-string claim value makes the constructor raise as
well. -/
def uuidOfClaim : Claim → Option String
  | .str s => uuidParse s
  | .num _ => none

/-- `db.execute(select(User).where(User.id == uid))` + `scalar_one_or_none`
over the store (`id` is the primary key, so at most one row matches). -/
def findById (store : List User) (uid : String) : Option User :=
  store.find? (fun u => u.id == uid)

/-- The body of `get_current_user` (`auth.py:76-97`) before its catch-all:
decode, check the subject claim, parse it, look the account up. Note the
body never consults `is_active`. -/
def get_current_user_body (S : Settings) (store : List User) (token : Token)
    (now : Int) : Except PyErr User :=
  match decode_token S token now with
  | .error _ => .error (.unhandled "JWTError")
  | .ok payload =>
    match payload.lookup "sub" with
    | none => .error (.httpException 401 "Invalid token")
    | some c =>
      if pyFalsy (some c) then .error (.httpException 401 "Invalid token")
      else match uuidOfClaim c with
      | none => .error (.unhandled "ValueError")
      | some uid =>
        match findById store uid with
        | none => .error (.httpException 401 "User not found")
        | some u => .ok u

/-- `get_current_user` (`auth.py:76-97`): the whole body runs inside
`try: ... except Exception:`, so every failure — including the
`HTTPException`s raised inside the body — is replaced by the one generic
401 "Invalid credentials". -/
def get_current_user (S : Settings) (store : List User) (token : Token)
    (now : Int) : Except PyErr User :=
  match get_current_user_body S store token now with
  | .ok u => .ok u
  | .error _ => .error (.httpException 401 "Invalid credentials")

/-- `UserCreate` (`auth.py:25-33`). -/
structure UserCreate where
  email : String
  username : String
  full_name : Option String
  is_active : Bool
  password : String
deriving DecidableEq

/-- The row persisted by `create_user` (`auth.py:124-134`): both timestamps
set to the creation instant, `is_active` forced to `True`, `last_login`
unset, identifier freshly generated. -/
def mkNewUser (user_data : UserCreate) (now : Int) (newId : String)
    (ph : String) : User :=
  { id := newId
    email := user_data.email
    username := user_data.username
    full_name := user_data.full_name
    is_active := true
    password_hash := ph
    created_at := now
    updated_at := now
    last_login := none }

/-- `create_user` (`auth.py:113-136`): select every row matching the new
email OR the new username and call `scalar_one_or_none()` on the result —
`None` (no row) lets registration proceed, exactly one row raises the 409,
and two or more rows make `scalar_one_or_none` raise `MultipleResultsFound`,
which nothing catches (surfaced 500 by the generic handler). On the success
path a fresh row is persisted, stamped `created_at = updated_at = now`,
`is_active = True`, `last_login = None`, with the freshly generated
identifier `newId` (the `uuid.uuid4` column default). Returns the store
after the call and the response. -/
def create_user (H : PasslibContext) (store : List User) (user_data : UserCreate)
    (now : Int) (newId : String) : List User × Except PyErr UserResponse :=
  match store.filter (fun u => u.email == user_data.email || u.username == user_data.username) with
  | [] =>
    match get_password_hash H user_data.password with
    | .error e => (store, .error (.unhandled e))
    | .ok ph =>
      (store ++ [mkNewUser user_data now newId ph],
       .ok (to_user_response (mkNewUser user_data now newId ph)))
  | [_] => (store, .error (.httpException 409 "User already exists"))
  | _ => (store, .error (.unhandled "MultipleResultsFound"))

/-- The token triple returned by login and refresh (`Token` model,
`auth.py:66-69`). -/
structure TokenTriple where
  access_token : Token
  refresh_token : Token
  token_type : String
deriving DecidableEq

/-- `login_user` (`auth.py:139-150`): look the account up by username,
verify the password, stamp `last_login = now` (and nothing else) on the
row, and issue the access/refresh pair with the username as extra claim. -/
def login_user (H : PasslibContext) (S : Settings) (store : List User)
    (username password : String) (now : Int) : List User × Except PyErr TokenTriple :=
  match store.find? (fun u => u.username == username) with
  | none => (store, .error (.httpException 401 "Incorrect username or password"))
  | some u =>
    if verify_password H password u.password_hash then
      let store' := store.map (fun v =>
        if v.id == u.id then { v with last_login := some now } else v)
      (store',
       .ok { access_token :=
               create_access_token S u.id none
                 (some [("username", .str u.username)]) now
             refresh_token :=
               create_refresh_token S u.id none
                 (some [("username", .str u.username)]) now
             token_type := "bearer" })
    else (store, .error (.httpException 401 "Incorrect username or password"))

/-- `refresh_token` endpoint (`auth.py:157-174`). Unlike `get_current_user`
there is no `try`/`except` here: a decode failure or a `UUID` parse failure
propagates as an uncaught exception (surfaced 500 by the generic handler). -/
def refresh_endpoint (S : Settings) (store : List User) (tok : Token)
    (now : Int) : Except PyErr TokenTriple :=
  match decode_token S tok now with
  | .error _ => .error (.unhandled "JWTError")
  | .ok payload =>
    if payload.lookup "type" ≠ some (.str "refresh") then
      .error (.httpException 400 "Invalid refresh token")
    else match payload.lookup "sub" with
    | none => .error (.httpException 401 "Invalid token")
    | some c =>
      if pyFalsy (some c) then .error (.httpException 401 "Invalid token")
      else match uuidOfClaim c with
      | none => .error (.unhandled "ValueError")
      | some uid =>
        match findById store uid with
        | none => .error (.httpException 401 "User not found")
        | some u =>
          if u.is_active then
            .ok { access_token :=
                    create_access_token S u.id none
                      (some [("username", .str u.username)]) now
                  refresh_token :=
                    create_refresh_token S u.id none
                      (some [("username", .str u.username)]) now
                  token_type := "bearer" }
          else .error (.httpException 401 "User not found")

/-- `UserUpdate` (`auth.py:40-44`) with `exclude_unset=True` semantics:
`some v` is a supplied field, `none` an omitted one. -/
structure UserUpdate where
  email : Option String
  username : Option String
  full_name : Option String
  is_active : Option Bool
deriving DecidableEq

/-- The conflict pre-check of `update_user` (`auth.py:234-244`): the
`.where` clauses chain conjunctively, so when both email and username are
supplied a row conflicts only if it matches BOTH. -/
def updateConflict (store : List User) (uid : String) (d : UserUpdate) : Option User :=
  store.find? (fun o =>
    o.id != uid
    && (match d.email with | some e => o.email == e | none => true)
    && (match d.username with | some n => o.username == n | none => true))

/-- The field application of `update_user` (`auth.py:245-253`): each
supplied field overwrites the row's value, and `updated_at` is stamped with
the current time. -/
def applyUpd (u : User) (d : UserUpdate) (now : Int) : User :=
  { u with
    email := d.email.getD u.email
    username := d.username.getD u.username
    full_name := match d.full_name with | some f => some f | none => u.full_name
    is_active := d.is_active.getD u.is_active
    updated_at := now }

/-- `update_user` (`auth.py:223-258`): parse the id, find the row, run the
conflict pre-check when email or username is supplied, apply the supplied
fields and stamp `updated_at = now`. -/
def update_user (store : List User) (user_id : String) (d : UserUpdate)
    (now : Int) : List User × Except PyErr UserResponse :=
  match uuidParse user_id with
  | none => (store, .error (.httpException 400 "Invalid user ID format"))
  | some uid =>
    match findById store uid with
    | none => (store, .error (.httpException 404 "User not found"))
    | some u =>
      if (d.email.isSome || d.username.isSome) && (updateConflict store uid d).isSome then
        (store, .error (.httpException 409 "Email or username already exists"))
      else
        (store.map (fun v => if v.id == uid then applyUpd u d now else v),
         .ok (to_user_response (applyUpd u d now)))

/-- The descending-creation-time order of `list_users`
(`order_by(User.created_at.desc())`). -/
def createdDesc (a b : User) : Prop := b.created_at ≤ a.created_at

instance : DecidableRel createdDesc := fun a b =>
  inferInstanceAs (Decidable (b.created_at ≤ a.created_at))

instance : IsTotal User createdDesc :=
  ⟨fun a b => le_total b.created_at a.created_at⟩

instance : IsTrans User createdDesc :=
  ⟨fun _ _ _ h₁ h₂ => le_trans h₂ h₁⟩

/-- The rows `list_users` selects: the store filtered by the optional
`is_active` query parameter. -/
def listFiltered (store : List User) (is_active : Option Bool) : List User :=
  match is_active with
  | some b => store.filter (fun u => u.is_active == b)
  | none => store

/-- `list_users` (`auth.py:206-220`): count the filtered set, then page the
filtered set ordered by `created_at` descending with `offset skip` and
`limit`. -/
def list_users (store : List User) (is_active : Option Bool) (skip limit : Nat) :
    UserListResponse :=
  let q := listFiltered store is_active
  let total := q.length
  let page := (((q.insertionSort createdDesc).drop skip).take limit).map to_user_response
  { users := page, total := total, skip := skip, limit := limit }

/-- The FastAPI query validation of `list_users`:
`skip: int = Query(0, ge=0)`, `limit: int = Query(50, ge=1, le=100)`. -/
def listQueryOk (skip limit : Int) : Bool :=
  skip ≥ 0 && limit ≥ 1 && limit ≤ 100

/-- The declared default of the `limit` query parameter. -/
def listLimitDefault : Int := 50

/-- The declared default of the `skip` query parameter. -/
def listSkipDefault : Int := 0

/-! ### A concrete `PasslibContext` used to instantiate theorems -/

/-- A concrete stand-in for a `pbkdf2_sha256` hash: self-describing via a
leading marker character. -/
def toyHash (p : String) : String := String.mk ('#' :: p.data)

/-- A concrete `PasslibContext` satisfying the §4.1 contract, used to
evaluate the hashing pipeline on explicit inputs. -/
def toyCtx : PasslibContext :=
  { hashExc := fun p => .ok (toyHash p)
    verify := fun q h => h == toyHash q
    identify := fun h =>
      match h.data with
      | c :: _ =>
        if c = '#' then some "pbkdf2_sha256"
        else if c = '$' then some "bcrypt"
        else none
      | [] => none
    sha256hex := fun s => toyHash s
    hash_ok := fun _ => rfl
    identify_default := by
      intro p h hh
      have hh' : toyHash p = h := by simpa using hh
      subst hh'
      simp [toyHash]
    verify_correct := by
      intro p h hh
      have hh' : toyHash p = h := by simpa using hh
      subst hh'
      exact beq_self_eq_true _
    verify_sound := by
      intro p q h hh hv
      have hh' : toyHash p = h := by simpa using hh
      have hq : h = toyHash q := by simpa using hv
      have hd : p.data = q.data := by
        have h₂ := congrArg String.data (hh'.trans hq)
        simpa [toyHash] using h₂
      exact congrArg String.mk hd.symm }

/-! ### Helper lemmas -/

/-- Decoding a token signed with the expected key and algorithm succeeds
whenever its numeric `exp` claim has not passed. -/
theorem joseDecode_signed_ok {cs : Claims} {e : Int} (key alg : String) (now : Int)
    (he : cs.lookup "exp" = some (.num e)) (hlt : ¬ e < now) :
    joseDecode (.signed cs key alg) key [alg] now = .ok cs := by
  simp [joseDecode, he, hlt]

/-! ### Claim theorems -/

/-- C1: the claim says a token issued with `expires_minutes = 0` fails
decode as expired. In the code, `expires_minutes or
settings.ACCESS_TOKEN_EXPIRE_MINUTES` treats `0` as falsy, so a ttl of 0
silently becomes the default 30-minute ttl: the token issued with ttl 0 is
identical to one issued with no ttl argument, and decodes successfully
(here: immediately at issue time). -/
theorem c1_ttl_zero_token_decodes :
    create_access_token defaultSettings "7" (some 0) none 0 =
      create_access_token defaultSettings "7" none none 0 ∧
    decode_token defaultSettings
        (create_access_token defaultSettings "7" (some 0) none 0) 0 =
      .ok [("sub", .str "7"), ("exp", .num 1800)] := by
  constructor
  · rfl
  · rfl

/-- C5: decoding `create_access_token s` yields claims with `sub = s` and no
`type` claim at all (in particular none equal to `"refresh"`); decoding
`create_refresh_token s` yields `sub = s` and `type = "refresh"`. Stated for
any settings, issue time `now` and decode time `now₂` within the respective
default ttls. -/
theorem c5_token_roundtrip (S : Settings) (s : String) (now now₂ : Int)
    (hacc : now₂ ≤ now + 60 * S.ACCESS_TOKEN_EXPIRE_MINUTES)
    (href : now₂ ≤ now + 86400 * S.REFRESH_TOKEN_EXPIRE_DAYS) :
    (∃ p, decode_token S (create_access_token S s none none now) now₂ = .ok p ∧
       p.lookup "sub" = some (.str s) ∧ p.lookup "type" = none) ∧
    (∃ p, decode_token S (create_refresh_token S s none none now) now₂ = .ok p ∧
       p.lookup "sub" = some (.str s) ∧ p.lookup "type" = some (.str "refresh")) := by
  constructor
  · refine ⟨[("sub", .str s), ("exp", .num (now + 60 * S.ACCESS_TOKEN_EXPIRE_MINUTES))],
      ?_, ?_, ?_⟩
    · simp [decode_token, create_access_token, joseDecode, orDefault, List.lookup,
        not_lt.mpr hacc]
    · simp [List.lookup]
    · simp [List.lookup]
  · refine ⟨[("sub", .str s), ("type", .str "refresh"),
      ("exp", .num (now + 86400 * S.REFRESH_TOKEN_EXPIRE_DAYS))], ?_, ?_, ?_⟩
    · simp [decode_token, create_refresh_token, joseDecode, orDefault, List.lookup,
        not_lt.mpr href]
    · simp [List.lookup]
    · simp [List.lookup]

/-- Witness for C5 at concrete inputs. -/
theorem c5_token_roundtrip_witness :
    (∃ p, decode_token defaultSettings
        (create_access_token defaultSettings "42" none none 0) 60 = .ok p ∧
       p.lookup "sub" = some (.str "42") ∧ p.lookup "type" = none) ∧
    (∃ p, decode_token defaultSettings
        (create_refresh_token defaultSettings "42" none none 0) 60 = .ok p ∧
       p.lookup "sub" = some (.str "42") ∧
       p.lookup "type" = some (.str "refresh")) :=
  c5_token_roundtrip defaultSettings "42" 0 60 (by decide) (by decide)

/-- C7: for every bearer token, account store, settings and clock, the
authorization guard either succeeds or returns the one generic
401 "Invalid credentials" — decode failure, missing subject, malformed
identifier and lookup miss are indistinguishable to the caller. -/
theorem c7_guard_uniform_failure (S : Settings) (store : List User)
    (token : Token) (now : Int) :
    (∃ u, get_current_user S store token now = .ok u) ∨
    get_current_user S store token now =
      .error (.httpException 401 "Invalid credentials") := by
  unfold get_current_user
  cases h : get_current_user_body S store token now with
  | ok u => exact .inl ⟨u, rfl⟩
  | error e => exact .inr rfl

/-- C4: for every password `p` — any length, any characters — hashing
succeeds under the default scheme and `verify_password p (hash p)` is true,
while `verify_password q (hash p)` is false for every `q ≠ p`. Stated over
any `PasslibContext` satisfying the §4.1 contract. -/
theorem c4_password_roundtrip (H : PasslibContext) (p : String) :
    ∃ h, get_password_hash H p = .ok h ∧
      verify_password H p h = true ∧
      ∀ q, q ≠ p → verify_password H q h = false := by
  obtain ⟨h, hh⟩ : ∃ h, H.hashExc p = .ok h := by
    have := H.hash_ok p
    cases hx : H.hashExc p with
    | ok h => exact ⟨h, rfl⟩
    | error e => rw [hx] at this; simp [Except.isOk, Except.toBool] at this
  have hident : H.identify h = some "pbkdf2_sha256" := H.identify_default p h hh
  have hbranch : ¬ (H.identify h = some "bcrypt" ∧ p.utf8ByteSize > 72) := by
    rintro ⟨hb, -⟩
    rw [hident] at hb
    simp at hb
  refine ⟨h, ?_, ?_, ?_⟩
  · simp [get_password_hash, hh]
  · simp [verify_password, hbranch, H.verify_correct p h hh]
  · intro q hq
    have hbranchq : ¬ (H.identify h = some "bcrypt" ∧ q.utf8ByteSize > 72) := by
      rintro ⟨hb, -⟩
      rw [hident] at hb
      simp at hb
    simp only [verify_password, if_neg hbranchq]
    cases hv : H.verify q h with
    | false => rfl
    | true => exact absurd (H.verify_sound p q h hh hv) hq

/-- Witness for C4: a 74-byte multi-byte password round-trips and a
different password is rejected, under the concrete context. -/
theorem c4_password_roundtrip_witness :
    ∃ h, get_password_hash toyCtx (String.mk (List.replicate 37 'α')) = .ok h ∧
      verify_password toyCtx (String.mk (List.replicate 37 'α')) h = true ∧
      verify_password toyCtx "x" h = false := by
  obtain ⟨h, h₁, h₂, h₃⟩ := c4_password_roundtrip toyCtx (String.mk (List.replicate 37 'α'))
  exact ⟨h, h₁, h₂, h₃ "x" (by decide)⟩

/-- C10: for a valid, unexpired access token of an existing account with
`is_active = false`, the guard still returns the account (it never checks
the active flag), while the refresh endpoint rejects the same account's
refresh token with 401. -/
theorem c10_inactive_still_authorized (S : Settings) (store : List User)
    (u : User) (now now₂ : Int)
    (hfind : findById store u.id = some u)
    (hinactive : u.is_active = false)
    (hvalid : validUuid u.id = true)
    (hacc : now₂ ≤ now + 60 * S.ACCESS_TOKEN_EXPIRE_MINUTES)
    (href : now₂ ≤ now + 86400 * S.REFRESH_TOKEN_EXPIRE_DAYS) :
    get_current_user S store
        (create_access_token S u.id none
          (some [("username", .str u.username)]) now) now₂ = .ok u ∧
    refresh_endpoint S store
        (create_refresh_token S u.id none
          (some [("username", .str u.username)]) now) now₂ =
      .error (.httpException 401 "User not found") := by
  have hne : (u.id == "") = false := by
    apply beq_eq_false_iff_ne.mpr
    intro h
    rw [h] at hvalid
    exact absurd hvalid (by decide)
  have hparse : uuidParse u.id = some u.id := by
    simp [uuidParse, hvalid]
  have htok : create_access_token S u.id none
      (some [("username", .str u.username)]) now =
      .signed [("sub", .str u.id),
               ("exp", .num (now + 60 * S.ACCESS_TOKEN_EXPIRE_MINUTES)),
               ("username", .str u.username)] S.SECRET_KEY S.ALGORITHM := rfl
  have hrtok : create_refresh_token S u.id none
      (some [("username", .str u.username)]) now =
      .signed [("sub", .str u.id), ("type", .str "refresh"),
               ("exp", .num (now + 86400 * S.REFRESH_TOKEN_EXPIRE_DAYS)),
               ("username", .str u.username)] S.SECRET_KEY S.ALGORITHM := rfl
  constructor
  · simp [get_current_user, get_current_user_body, htok, decode_token, joseDecode,
      List.lookup, not_lt.mpr hacc, pyFalsy, hne, uuidOfClaim, hparse, hfind]
  · simp [refresh_endpoint, hrtok, decode_token, joseDecode, List.lookup,
      not_lt.mpr href, pyFalsy, hne, uuidOfClaim, hparse, hfind, hinactive]

/-- A concrete inactive account. -/
def u10 : User :=
  { id := "00000000-0000-4000-8000-000000000001"
    email := "i@x"
    username := "ina"
    full_name := none
    is_active := false
    password_hash := "#pw"
    created_at := 0
    updated_at := 0
    last_login := none }

/-- Witness for C10 at a concrete store and clock. -/
theorem c10_inactive_still_authorized_witness :
    get_current_user defaultSettings [u10]
        (create_access_token defaultSettings u10.id none
          (some [("username", .str u10.username)]) 0) 0 = .ok u10 ∧
    refresh_endpoint defaultSettings [u10]
        (create_refresh_token defaultSettings u10.id none
          (some [("username", .str u10.username)]) 0) 0 =
      .error (.httpException 401 "User not found") :=
  c10_inactive_still_authorized defaultSettings [u10] u10 0 0 (by decide)
    (by decide) (by decide) (by decide) (by decide)

/-- Account A of the C3 store. -/
def userA : User :=
  { id := "aaaaaaaa-0000-4000-8000-000000000001"
    email := "a@x.com"
    username := "alice"
    full_name := none
    is_active := true
    password_hash := "#pa"
    created_at := 1
    updated_at := 1
    last_login := none }

/-- Account B of the C3 store: owns the email being claimed. -/
def userB : User :=
  { id := "bbbbbbbb-0000-4000-8000-000000000002"
    email := "b@x.com"
    username := "bob"
    full_name := none
    is_active := true
    password_hash := "#pb"
    created_at := 2
    updated_at := 2
    last_login := none }

/-- Account C of the C3 store: owns the username being claimed. -/
def userC : User :=
  { id := "cccccccc-0000-4000-8000-000000000003"
    email := "c@x.com"
    username := "carol"
    full_name := none
    is_active := true
    password_hash := "#pc"
    created_at := 3
    updated_at := 3
    last_login := none }

/-- The three-account store of the C3 scenario. -/
def storeC3 : List User := [userA, userB, userC]

/-- The C3 update: account A takes B's email and C's username together. -/
def updC3 : UserUpdate :=
  { email := some "b@x.com"
    username := some "carol"
    full_name := none
    is_active := none }

/-- C3: the claim says this update must fail with 409. It does not: the
conflict pre-check chains its `.where` clauses conjunctively, so no single
other account matches both colliding values, the update succeeds, and
afterwards two accounts share email `b@x.com` and two share username
`carol` — the uniqueness invariant is violated. -/
theorem c3_cross_conflict_update_not_rejected :
    (update_user storeC3 userA.id updC3 100).2.toOption =
      some (to_user_response
        { userA with email := "b@x.com", username := "carol", updated_at := 100 }) ∧
    ((update_user storeC3 userA.id updC3 100).1.filter
        (fun u => u.email == "b@x.com")).length = 2 ∧
    ((update_user storeC3 userA.id updC3 100).1.filter
        (fun u => u.username == "carol")).length = 2 := by
  decide

/-- The account of the C6 login scenario. -/
def u6 : User :=
  { id := "dddddddd-0000-4000-8000-000000000004"
    email := "d@x.com"
    username := "dana"
    full_name := none
    is_active := true
    password_hash := toyHash "pw"
    created_at := 5
    updated_at := 5
    last_login := none }

/-- C6 counterexample: a successful login at time 10 mutates the record
(`last_login` changes) yet leaves `updated_at` at its old value 5 — so
updated-at is NOT refreshed on every mutation. -/
theorem c6_login_mutation_skips_updated_at :
    (login_user toyCtx defaultSettings [u6] "dana" "pw" 10).2.isOk = true ∧
    (login_user toyCtx defaultSettings [u6] "dana" "pw" 10).1 =
      [{ u6 with last_login := some 10 }] ∧
    u6.last_login ≠ some 10 ∧
    ({ u6 with last_login := some 10 } : User).updated_at = 5 := by
  decide

/-- A successful `update_user` call has parsed the id, found the row,
passed the conflict pre-check, and produced the mapped store and the
projected updated row. -/
theorem update_user_ok_elim {store : List User} {s : String} {d : UserUpdate}
    {now : Int} {store' : List User} {resp : UserResponse}
    (h : update_user store s d now = (store', .ok resp)) :
    ∃ uid u, uuidParse s = some uid ∧ findById store uid = some u ∧
      store' = store.map (fun v => if v.id == uid then applyUpd u d now else v) ∧
      resp = to_user_response (applyUpd u d now) := by
  unfold update_user at h
  split at h
  · simp at h
  · rename_i uid hp
    split at h
    · simp at h
    · rename_i u hf
      split at h
      · simp at h
      · injection h with h₁ h₂
        injection h₂ with h₂
        exact ⟨uid, u, hp, hf, h₁.symm, h₂.symm⟩

/-- C6 (amended): `updated_at` is refreshed (set to the current time) on
every successful profile update and is never decreased by any operation
under a monotone clock — but the last-login mutation performed by a
successful login does NOT refresh it: login leaves every record's
`updated_at` exactly as it was. -/
theorem c6_updated_at_amended (H : PasslibContext) (S : Settings)
    (store : List User) (user_id : String) (d : UserUpdate)
    (username password : String) (now : Int)
    (hclock : ∀ v ∈ store, v.updated_at ≤ now) :
    (∀ store' resp, update_user store user_id d now = (store', .ok resp) →
       resp.updated_at = now ∧
       List.Forall₂ (fun old new : User =>
         old.updated_at ≤ new.updated_at ∧
           (new.updated_at = now ∨ new = old)) store store') ∧
    (∀ store' r, login_user H S store username password now = (store', r) →
       List.Forall₂ (fun old new : User =>
         new.updated_at = old.updated_at) store store') := by
  constructor
  · intro store' resp h
    obtain ⟨uid, u, hp, hf, hst, hresp⟩ := update_user_ok_elim h
    constructor
    · rw [hresp]
      rfl
    · rw [hst, List.forall₂_map_right_iff]
      rw [List.forall₂_same]
      intro x hx
      by_cases hid : (x.id == uid) = true
      · rw [if_pos hid]
        exact ⟨hclock x hx, .inl rfl⟩
      · rw [if_neg hid]
        exact ⟨le_refl _, .inr rfl⟩
  · intro store' r h
    unfold login_user at h
    split at h
    · injection h with h₁ h₂
      rw [← h₁, List.forall₂_same]
      intro x _
      rfl
    · rename_i u hf
      split at h
      · injection h with h₁ h₂
        rw [← h₁, List.forall₂_map_right_iff, List.forall₂_same]
        intro x _
        by_cases hid : (x.id == u.id) = true
        · rw [if_pos hid]
        · rw [if_neg hid]
      · injection h with h₁ h₂
        rw [← h₁, List.forall₂_same]
        intro x _
        rfl

/-- The C6 witness update: deactivate the account, nothing else. -/
def updC6 : UserUpdate :=
  { email := none
    username := none
    full_name := none
    is_active := some false }

/-- Witness for C6 (amended) at a concrete store, update and login. -/
theorem c6_updated_at_amended_witness :
    List.Forall₂ (fun old new : User =>
        old.updated_at ≤ new.updated_at ∧
          (new.updated_at = 10 ∨ new = old)) [u6]
      (update_user [u6] u6.id updC6 10).1 ∧
    List.Forall₂ (fun old new : User =>
        new.updated_at = old.updated_at) [u6]
      (login_user toyCtx defaultSettings [u6] "dana" "pw" 10).1 := by
  have hmain := c6_updated_at_amended toyCtx defaultSettings [u6] u6.id updC6
    "dana" "pw" 10 (by decide)
  constructor
  · exact (hmain.1 (update_user [u6] u6.id updC6 10).1
      (to_user_response (applyUpd u6 updC6 10)) rfl).2
  · exact hmain.2 (login_user toyCtx defaultSettings [u6] "dana" "pw" 10).1
      (login_user toyCtx defaultSettings [u6] "dana" "pw" 10).2 rfl

/-- C2 counterexample: at the refresh endpoint a token that fails to decode
(here: a malformed token) is NOT answered with a 401 — the `JWTError`
escapes the endpoint, which has no `try`/`except`, and the generic handler
surfaces it as a 500. -/
theorem c2_decode_failure_not_401 :
    refresh_endpoint defaultSettings [] (.malformed "not-a-jwt") 0 =
      .error (.unhandled "JWTError") ∧
    errStatus (.unhandled "JWTError") = 500 ∧ (500 : Nat) ≠ 401 :=
  ⟨rfl, rfl, by decide⟩

/-- C2 (amended): the refresh endpoint's behaviour case by case — a decode
failure (invalid signature, malformed, expired) propagates uncaught and is
surfaced as 500, NOT 401; a decoded kind claim other than `"refresh"` gives
400; a missing or falsy subject gives 401; a subject that does not parse as
an identifier propagates uncaught (500, NOT 401); an unknown or inactive
account gives 401; otherwise a fresh access/refresh pair is issued. -/
theorem c2_refresh_paths (S : Settings) (store : List User) (tok : Token)
    (now : Int) :
    (∀ e, decode_token S tok now = .error e →
       refresh_endpoint S store tok now = .error (.unhandled "JWTError") ∧
       errStatus (.unhandled "JWTError") = 500) ∧
    (∀ payload, decode_token S tok now = .ok payload →
      (payload.lookup "type" ≠ some (.str "refresh") →
        refresh_endpoint S store tok now =
          .error (.httpException 400 "Invalid refresh token")) ∧
      (payload.lookup "type" = some (.str "refresh") →
        (pyFalsy (payload.lookup "sub") = true →
          refresh_endpoint S store tok now =
            .error (.httpException 401 "Invalid token")) ∧
        (∀ c, payload.lookup "sub" = some c → pyFalsy (some c) = false →
          (uuidOfClaim c = none →
            refresh_endpoint S store tok now = .error (.unhandled "ValueError") ∧
            errStatus (.unhandled "ValueError") = 500) ∧
          (∀ uid, uuidOfClaim c = some uid →
            (findById store uid = none →
              refresh_endpoint S store tok now =
                .error (.httpException 401 "User not found")) ∧
            (∀ u, findById store uid = some u →
              (u.is_active = false →
                refresh_endpoint S store tok now =
                  .error (.httpException 401 "User not found")) ∧
              (u.is_active = true →
                refresh_endpoint S store tok now = .ok
                  { access_token := create_access_token S u.id none
                      (some [("username", .str u.username)]) now
                    refresh_token := create_refresh_token S u.id none
                      (some [("username", .str u.username)]) now
                    token_type := "bearer" })))))) := by
  refine ⟨?_, ?_⟩
  · intro e he
    exact ⟨by simp [refresh_endpoint, he], rfl⟩
  · intro payload hp
    refine ⟨?_, ?_⟩
    · intro hty
      simp [refresh_endpoint, hp, hty]
    · intro hty
      refine ⟨?_, ?_⟩
      · intro hfal
        cases hsub : payload.lookup "sub" with
        | none => simp [refresh_endpoint, hp, hty, hsub]
        | some c =>
          rw [hsub] at hfal
          simp [refresh_endpoint, hp, hty, hsub, hfal]
      · intro c hsub hfal
        refine ⟨?_, ?_⟩
        · intro hu
          exact ⟨by simp [refresh_endpoint, hp, hty, hsub, hfal, hu], rfl⟩
        · intro uid huid
          refine ⟨?_, ?_⟩
          · intro hfind
            simp [refresh_endpoint, hp, hty, hsub, hfal, huid, hfind]
          · intro u hfind
            refine ⟨?_, ?_⟩
            · intro hact
              simp [refresh_endpoint, hp, hty, hsub, hfal, huid, hfind, hact]
            · intro hact
              simp [refresh_endpoint, hp, hty, hsub, hfal, huid, hfind, hact]

/-- Witness for C2 (amended): the decode-failure path at a malformed token,
the wrong-kind path at an access token, and the success path at a valid
refresh token of an active account. -/
theorem c2_refresh_paths_witness :
    refresh_endpoint defaultSettings [] (.malformed "x") 0 =
      .error (.unhandled "JWTError") ∧
    refresh_endpoint defaultSettings [userA]
        (create_access_token defaultSettings userA.id none none 0) 0 =
      .error (.httpException 400 "Invalid refresh token") ∧
    refresh_endpoint defaultSettings [userA]
        (create_refresh_token defaultSettings userA.id none none 0) 0 = .ok
      { access_token := create_access_token defaultSettings userA.id none
          (some [("username", .str userA.username)]) 0
        refresh_token := create_refresh_token defaultSettings userA.id none
          (some [("username", .str userA.username)]) 0
        token_type := "bearer" } := by
  refine ⟨?_, ?_, ?_⟩
  · exact ((c2_refresh_paths defaultSettings [] (.malformed "x") 0).1 .jwtError rfl).1
  · exact ((c2_refresh_paths defaultSettings [userA]
      (create_access_token defaultSettings userA.id none none 0) 0).2
      [("sub", .str userA.id), ("exp", .num (0 + 60 * 30))] rfl).1 (by decide)
  · exact (((((c2_refresh_paths defaultSettings [userA]
      (create_refresh_token defaultSettings userA.id none none 0) 0).2
      [("sub", .str userA.id), ("type", .str "refresh"),
       ("exp", .num (0 + 86400 * 7))] rfl).2 (by decide)).2
      (.str userA.id) (by decide) (by decide)).2 userA.id (by decide)).2 userA
      (by decide) |>.2 rfl

/-- C8 counterexample: when account B holds the colliding email and account
C the colliding username, the pre-check query returns two rows,
`scalar_one_or_none()` raises `MultipleResultsFound`, nothing catches it,
and the operation surfaces as 500 — not the 409 the claim requires. -/
theorem c8_two_account_collision_not_409 :
    (create_user toyCtx [userB, userC]
        { email := "b@x.com"
          username := "carol"
          full_name := none
          is_active := true
          password := "pw" } 50 "eeeeeeee-0000-4000-8000-000000000005").2 =
      .error (.unhandled "MultipleResultsFound") ∧
    errStatus (.unhandled "MultipleResultsFound") = 500 ∧ (500 : Nat) ≠ 409 :=
  ⟨rfl, rfl, by decide⟩

/-- C8 (amended): register fails 409 exactly when ONE existing account
matches the new email or the new username (exact match, possibly both on
that one account); when two or more accounts match — the colliding email on
one, the colliding username on another — `scalar_one_or_none` raises
`MultipleResultsFound` uncaught, surfaced as 500. On success the persisted
row is the freshly stamped one (`created_at = updated_at = now`,
`is_active`, unset `last_login`, generated identifier) appended to the
store; and the response projection is independent of the password hash (it
has no hash field, so changing the hash never changes the response). -/
theorem c8_register_semantics_amended (H : PasslibContext) (store : List User)
    (user_data : UserCreate) (now : Int) (newId : String) :
    ((create_user H store user_data now newId).2 =
        .error (.httpException 409 "User already exists") ↔
      (store.filter (fun u =>
        u.email == user_data.email || u.username == user_data.username)).length = 1) ∧
    (2 ≤ (store.filter (fun u =>
        u.email == user_data.email || u.username == user_data.username)).length →
      (create_user H store user_data now newId).2 =
        .error (.unhandled "MultipleResultsFound") ∧
      errStatus (.unhandled "MultipleResultsFound") = 500) ∧
    ((¬ ∃ u ∈ store, u.email = user_data.email ∨ u.username = user_data.username) →
      ∃ ph, get_password_hash H user_data.password = .ok ph ∧
        create_user H store user_data now newId =
          (store ++ [mkNewUser user_data now newId ph],
           .ok (to_user_response (mkNewUser user_data now newId ph)))) ∧
    (∀ (u : User) (hsh : String),
      to_user_response { u with password_hash := hsh } = to_user_response u) := by
  obtain ⟨ph, hph⟩ : ∃ ph, H.hashExc user_data.password = .ok ph := by
    have hok := H.hash_ok user_data.password
    cases hx : H.hashExc user_data.password with
    | ok h => exact ⟨h, rfl⟩
    | error e => rw [hx] at hok; simp [Except.isOk, Except.toBool] at hok
  have hgph : get_password_hash H user_data.password = .ok ph := by
    simp [get_password_hash, hph]
  refine ⟨?_, ?_, ?_, fun u hsh => rfl⟩
  · cases hf : store.filter
        (fun u => u.email == user_data.email || u.username == user_data.username) with
    | nil => simp [create_user, hf, hgph]
    | cons w tl =>
      cases tl with
      | nil => simp [create_user, hf]
      | cons w₂ tl₂ => simp [create_user, hf]
  · intro h₂
    cases hf : store.filter
        (fun u => u.email == user_data.email || u.username == user_data.username) with
    | nil => rw [hf] at h₂; exact absurd h₂ (by simp)
    | cons w tl =>
      cases tl with
      | nil => rw [hf] at h₂; exact absurd h₂ (by simp)
      | cons w₂ tl₂ => exact ⟨by simp [create_user, hf], rfl⟩
  · intro hnone
    have hf : store.filter
        (fun u => u.email == user_data.email || u.username == user_data.username) = [] := by
      rw [List.filter_eq_nil_iff]
      intro u hu hpred
      simp only [Bool.or_eq_true, beq_iff_eq] at hpred
      exact hnone ⟨u, hu, hpred⟩
    exact ⟨ph, hgph, by simp [create_user, hf, hgph]⟩

/-- The registration data of the C8 witness. -/
def dataC8 : UserCreate :=
  { email := "new@x.com"
    username := "nina"
    full_name := none
    is_active := true
    password := "secret" }

/-- Witness for C8 (amended): the two-account collision surfaces as 500 at
a concrete store, and a collision-free registration succeeds with the
freshly stamped row. -/
theorem c8_register_semantics_amended_witness :
    ((create_user toyCtx [userB, userC]
        { email := "b@x.com"
          username := "carol"
          full_name := none
          is_active := true
          password := "pw" } 50 "eeeeeeee-0000-4000-8000-000000000005").2 =
      .error (.unhandled "MultipleResultsFound") ∧
     errStatus (.unhandled "MultipleResultsFound") = 500) ∧
    (∃ ph, get_password_hash toyCtx dataC8.password = .ok ph ∧
      create_user toyCtx [userA] dataC8 50 "eeeeeeee-0000-4000-8000-000000000005" =
        ([userA] ++ [mkNewUser dataC8 50 "eeeeeeee-0000-4000-8000-000000000005" ph],
         .ok (to_user_response
           (mkNewUser dataC8 50 "eeeeeeee-0000-4000-8000-000000000005" ph)))) := by
  constructor
  · exact (c8_register_semantics_amended toyCtx [userB, userC]
      { email := "b@x.com"
        username := "carol"
        full_name := none
        is_active := true
        password := "pw" } 50 "eeeeeeee-0000-4000-8000-000000000005").2.1 (by decide)
  · exact (c8_register_semantics_amended toyCtx [userA] dataC8 50
      "eeeeeeee-0000-4000-8000-000000000005").2.2.1 (by decide)

/-- C9: the listing's total is the filtered set's size regardless of the
pagination window; the page is the `skip`/`limit` window of the filtered
set in descending creation order (so at most `limit` accounts, sorted
descending); an `is_active` filter governs both the page and the count; and
the declared query constraints are `skip ≥ 0` and `1 ≤ limit ≤ 100` with
defaults 0 and 50. -/
theorem c9_list_pagination (store : List User) (fil : Option Bool)
    (skip limit : Nat) :
    (list_users store fil skip limit).total = (listFiltered store fil).length ∧
    (∀ skip₂ limit₂, (list_users store fil skip limit).total =
      (list_users store fil skip₂ limit₂).total) ∧
    (list_users store fil skip limit).users =
      ((((listFiltered store fil).insertionSort createdDesc).drop skip).take
        limit).map to_user_response ∧
    (list_users store fil skip limit).users.length ≤ limit ∧
    List.Sorted (fun a b : UserResponse => b.created_at ≤ a.created_at)
      (list_users store fil skip limit).users ∧
    (∀ b, fil = some b →
      (∀ r ∈ (list_users store fil skip limit).users, r.is_active = b) ∧
      (list_users store fil skip limit).total =
        (store.filter (fun u => u.is_active == b)).length) ∧
    (listSkipDefault = 0 ∧ listLimitDefault = 50 ∧
      ∀ sk li : Int, listQueryOk sk li = true ↔ 0 ≤ sk ∧ 1 ≤ li ∧ li ≤ 100) := by
  refine ⟨rfl, fun _ _ => rfl, rfl, ?_, ?_, ?_, rfl, rfl, ?_⟩
  · show (((((listFiltered store fil).insertionSort createdDesc).drop skip).take
        limit).map to_user_response).length ≤ limit
    rw [List.length_map]
    exact List.length_take_le _ _
  · have hs : List.Sorted createdDesc
        ((listFiltered store fil).insertionSort createdDesc) :=
      List.sorted_insertionSort createdDesc (listFiltered store fil)
    have hd : List.Sorted createdDesc
        ((((listFiltered store fil).insertionSort createdDesc).drop skip).take
          limit) :=
      List.Pairwise.sublist
        ((List.take_sublist _ _).trans (List.drop_sublist _ _)) hs
    exact List.Pairwise.map to_user_response (fun a b h => h) hd
  · intro b hb
    constructor
    · intro r hr
      simp only [list_users] at hr
      obtain ⟨u, hu, rfl⟩ := List.mem_map.mp hr
      have hu₂ : u ∈ (listFiltered store fil).insertionSort createdDesc :=
        List.mem_of_mem_drop (List.mem_of_mem_take hu)
      have hu₃ : u ∈ listFiltered store fil :=
        (List.mem_insertionSort createdDesc).mp hu₂
      rw [hb] at hu₃
      have := (List.mem_filter.mp hu₃).2
      simpa [to_user_response] using this
    · subst hb
      rfl
  · intro sk li
    simp [listQueryOk, and_assoc]

/-- The five-account store of the C9 witness. -/
def store5 : List User := [userA, userB, userC, u6, u10]

/-- Witness for C9: over five accounts, `skip=0, limit=2` returns at most 2
accounts in descending creation order with total 5; filtering by
`is_active=false` restricts both the page and the total (one inactive
account). -/
theorem c9_list_pagination_witness :
    (list_users store5 none 0 2).total = 5 ∧
    (list_users store5 none 0 2).users.length ≤ 2 ∧
    List.Sorted (fun a b : UserResponse => b.created_at ≤ a.created_at)
      (list_users store5 none 0 2).users ∧
    (∀ r ∈ (list_users store5 (some false) 0 50).users, r.is_active = false) ∧
    (list_users store5 (some false) 0 50).total = 1 := by
  have h₁ := c9_list_pagination store5 none 0 2
  have h₂ := c9_list_pagination store5 (some false) 0 50
  refine ⟨h₁.1.trans (by decide), h₁.2.2.2.1, h₁.2.2.2.2.1, ?_, ?_⟩
  · exact (h₂.2.2.2.2.2.1 false rfl).1
  · exact ((h₂.2.2.2.2.2.1 false rfl).2).trans (by decide)

end Memoist
